import Mathlib

/-!
Verification development for the Eurasia database toolkit
(`database_query_functions.py` and `database_crud_functions.py`).

The Python sources are shallowly embedded: SQL tables become lists of rows,
SQLite values become an explicit sum type, fallible statements become
`Except`, and console input becomes explicit string/choice parameters.
Each definition is annotated with the source function and lines it embeds.
-/

set_option autoImplicit false

namespace EurasiaDB

/-! ## Python string primitives -/

/-- The whitespace characters removed by Python `str.strip()` (ASCII subset,
which covers every confirmation string the console can produce). -/
def pyWhitespace : List Char := [' ', '\t', '\n', '\r', Char.ofNat 11, Char.ofNat 12]

/-- Python `s.strip()` on the character list level: drop whitespace from
both ends. -/
def pyStripChars (cs : List Char) : List Char :=
  ((cs.dropWhile (fun c => pyWhitespace.contains c)).reverse.dropWhile
    (fun c => pyWhitespace.contains c)).reverse

/-- Python `s.strip()`. -/
def pyStrip (s : String) : String := String.mk (pyStripChars s.data)

/-- Python `needle in hay` substring test. -/
def strContains (hay needle : String) : Bool :=
  hay.data.tails.any (fun suf => needle.data.isPrefixOf suf)

/-! ## SQLite values and the registered REGEXP predicates

`database_query_functions.py` lines 344-352 (`_regex_search`) and
`database_crud_functions.py` lines 18-25 (`_regex_search_case_insensitive`).
Both callbacks first test `isinstance(string, str)` and return `False` for
any non-string operand; the regex engine is only consulted for strings, and
any exception it raises is caught and converted to `False`. -/

/-- A value handed to the REGEXP callback by SQLite. -/
inductive SqlValue where
  | null : SqlValue
  | int : Int → SqlValue
  | real : Int → Int → SqlValue
  | text : String → SqlValue
  | blob : List Nat → SqlValue
deriving DecidableEq

/-- `isinstance(string, str)` on a SQLite value. -/
def SqlValue.isStr : SqlValue → Bool
  | .text _ => true
  | _ => false

/-- `_regex_search(pattern, string)` from the query module (lines 344-352),
with the regex engine abstracted as a fallible callback `engine`.
The body: non-string operand returns `False` immediately; otherwise the
engine runs inside `try`, and the `except` clause returns `False`.
The `Except.ok` result type records that the callback itself never raises. -/
def regexSearch (engine : String → String → Except String Bool)
    (pattern : String) (v : SqlValue) : Except String Bool :=
  match v with
  | .text s =>
    match engine pattern s with
    | .ok b => .ok b
    | .error _ => .ok false
  | _ => .ok false

/-- `_regex_search_case_insensitive(pattern, string)` from the mutation module
(lines 18-25): identical control flow, the engine is invoked with the
IGNORECASE flag (folded into the engine argument). -/
def regexSearchCI (engineCI : String → String → Except String Bool)
    (pattern : String) (v : SqlValue) : Except String Bool :=
  match v with
  | .text s =>
    match engineCI pattern s with
    | .ok b => .ok b
    | .error _ => .ok false
  | _ => .ok false

/-! ## `_get_next_uid` (`database_crud_functions.py` lines 155-166)

`SELECT MAX(UID) FROM table` is modelled on the column of UID values
(SQL `MAX` ignores NULLs and yields NULL on an empty table), and the body
`return (max_uid or 0) + 1` keeps Python `or` truthiness: a `0` maximum is
replaced by `0` just like `None` is. -/

/-- SQL `MAX` over a column of nullable integers. -/
def sqlMax : List (Option Int) → Option Int
  | [] => none
  | none :: rest => sqlMax rest
  | some v :: rest =>
    match sqlMax rest with
    | none => some v
    | some w => some (max v w)

/-- Python `max_uid or 0`: `None` and `0` are falsy. -/
def pyOrZero : Option Int → Int
  | none => 0
  | some v => if v = 0 then 0 else v

/-- `_get_next_uid(table_name)`: `(max_uid or 0) + 1` over the table's
UID column. -/
def getNextUid (uids : List (Option Int)) : Int := pyOrZero (sqlMax uids) + 1

/-! ## Relational state for the mutation module

Rows carry their UID plus the remaining integer-valued columns that foreign
keys can point at; a table carries its name, its declared foreign keys
(`PRAGMA foreign_key_list` rows, keeping the `ref_table`/`from_col`
components used by `delete_entry`), and its rows. -/

/-- One foreign-key declaration: `fk[2]` (referenced table) and `fk[3]`
(referencing column) of a `PRAGMA foreign_key_list` row. -/
structure FKDecl where
  refTable : String
  fromCol : String
deriving DecidableEq

/-- A table row: the UID primary key plus named nullable integer columns. -/
structure Row where
  uid : Int
  cols : List (String × Option Int)
deriving DecidableEq

/-- A table: name, foreign-key declarations, rows. -/
structure DbTable where
  name : String
  fks : List FKDecl
  rows : List Row
deriving DecidableEq

/-- Column access on a row; absent columns read as NULL. -/
def getCol (r : Row) (c : String) : Option Int :=
  match r.cols.find? (fun p => p.1 == c) with
  | some p => p.2
  | none => none

/-- `SELECT COUNT(*) FROM other_table WHERE fk_column = ?` with the target
UID bound (`delete_entry`, line 1039). -/
def countRefs (rows : List Row) (col : String) (uid : Int) : Nat :=
  (rows.filter (fun r => getCol r col == some uid)).length

/-- The warnings one table contributes to `delete_entry`'s pre-check
(lines 1026-1047): skipped entirely when it is the target table; otherwise
one `(table, column, count)` triple per foreign key declared against the
target table whose reference count is positive. -/
def tableWarnings (t : DbTable) (target : String) (uid : Int) :
    List (String × String × Nat) :=
  if t.name == target then []
  else
    t.fks.foldr (fun fk acc =>
      if fk.refTable == target then
        if 0 < countRefs t.rows fk.fromCol uid then
          (t.name, fk.fromCol, countRefs t.rows fk.fromCol uid) :: acc
        else acc
      else acc) []

/-- `related_records` as accumulated over all tables by `delete_entry`
(lines 1023-1047). -/
def relatedRecords (db : List DbTable) (target : String) (uid : Int) :
    List (String × String × Nat) :=
  db.foldr (fun t acc => tableWarnings t target uid ++ acc) []

/-- The confirmation gate and DELETE statement of `delete_entry`
(lines 1109-1128): the confirmation line is `input(...).strip()`, compared
against the literal `"DELETE"`; only on equality is
`DELETE FROM table WHERE UID = ?` issued (and `True` returned), otherwise
the function returns `False` with the database untouched. -/
def deleteEntryConfirm (db : List DbTable) (target : String) (uid : Int)
    (confirm : String) : Bool × List DbTable :=
  if pyStrip confirm == "DELETE" then
    (true, db.map (fun t =>
      if t.name == target then
        { t with rows := t.rows.filter (fun r => !(r.uid == uid)) }
      else t))
  else (false, db)

/-- The final phase of `delete_entry` (lines 1022-1128): compute the
dependent-record warnings, then ask for confirmation and act on it.
The warnings are computed before the confirmation prompt and do not feed
into the deletion decision. -/
def deleteEntryModel (db : List DbTable) (target : String) (uid : Int)
    (confirm : String) :
    List (String × String × Nat) × Bool × List DbTable :=
  (relatedRecords db target uid, deleteEntryConfirm db target uid confirm)

/-! ## `_normalize_search_term` (`database_crud_functions.py` lines 216-232)

Two `re.sub` passes over the search term.  Pass one prefixes every regex
metacharacter in the class `[.^$*+?{}\[\]\\|()]` with a backslash; pass two
replaces every character of the class written at line 230 with the
alternation group written at line 229.  Reading the file bytes, the class at
line 230 contains exactly U+0027, U+02BB and U+0060 (U+0027 appears three
times), and the group at line 229 is `(?:` U+0027 `|` U+0027 `|` U+02BB `|`
U+0060 `)` — the comment above them names U+2019 but that code point occurs
nowhere in either literal.  Both classes are single-character classes, so
each `re.sub` is an independent per-character substitution. -/

/-- U+0027 APOSTROPHE. -/
def aposQuote : Char := Char.ofNat 39

/-- U+02BB MODIFIER LETTER TURNED COMMA. -/
def aposOkina : Char := Char.ofNat 699

/-- U+0060 GRAVE ACCENT. -/
def aposGrave : Char := Char.ofNat 96

/-- U+2019 RIGHT SINGLE QUOTATION MARK — named in the source comment
(line 228) as handled, but absent from both the class and the group. -/
def aposRight : Char := Char.ofNat 8217

/-- The characters of the class `['ʻ`'']` at line 230, in file order:
U+0027, U+02BB, U+0060, U+0027, U+0027. -/
def aposClass : List Char := [aposQuote, aposOkina, aposGrave, aposQuote, aposQuote]

/-- The metacharacter class of the escaping pass (line 224). -/
def regexMeta : List Char :=
  ['.', '^', '$', '*', '+', '?', '{', '}', '[', ']', '\\', '|', '(', ')']

/-- The replacement group of line 229 as a character sequence:
`(?:` U+0027 `|` U+0027 `|` U+02BB `|` U+0060 `)`. -/
def aposGroup : List Char :=
  ['(', '?', ':', aposQuote, '|', aposQuote, '|', aposOkina, '|', aposGrave, ')']

/-- Pass one: `re.sub(r'([.^$*+?{}\[\]\\|()])', r'\\\1', search_term)`. -/
def escapeChars : List Char → List Char
  | [] => []
  | c :: cs => (if c ∈ regexMeta then ['\\', c] else [c]) ++ escapeChars cs

/-- Pass two: `re.sub(r"['ʻ`'']", apostrophe_pattern, escaped)`. -/
def aposSubChars : List Char → List Char
  | [] => []
  | c :: cs => (if c ∈ aposClass then aposGroup else [c]) ++ aposSubChars cs

/-- `_normalize_search_term(search_term)`. -/
def normalizeSearchTerm (s : String) : String :=
  String.mk (aposSubChars (escapeChars s.data))

/-! ### Semantics of the generated pattern fragment

`_normalize_search_term` only emits three constructs: a backslash-escaped
literal, a four-way single-character alternation group, and a bare literal
that is not a metacharacter.  `patMatch` is the Python `re` semantics of
exactly that fragment (full anchored match, IGNORECASE as registered by the
mutation module), and `pySearch` is `re.search`, which succeeds when any
contiguous substring matches. -/

/-- Character comparison under `re.IGNORECASE`. -/
def ciEq (c d : Char) : Bool := c == d || c.toLower == d.toLower

/-- One construct of the generated pattern fragment: a literal character or
a four-way single-character alternation group. -/
inductive RegexTok where
  | lit : Char → RegexTok
  | alts : Char → Char → Char → Char → RegexTok
deriving DecidableEq

/-- Decode the next construct of a generated pattern: a backslash escapes
the following character into a literal, `(?:a|b|c|d)` is an alternation
group, any other character (a stray backslash or an unrecognised `(...)`
construct never arises from `_normalize_search_term`) is a bare literal. -/
def nextTok : List Char → Option (RegexTok × List Char)
  | [] => none
  | c :: ps =>
    if c = '\\' then
      match ps with
      | e :: ps₂ => some (.lit e, ps₂)
      | [] => none
    else if c = '(' then
      match ps with
      | '?' :: ':' :: a₁ :: '|' :: a₂ :: '|' :: a₃ :: '|' :: a₄ :: ')' :: ps₂ =>
        some (.alts a₁ a₂ a₃ a₄, ps₂)
      | _ => none
    else some (.lit c, ps)

/-- Whether a pattern construct matches one character (IGNORECASE). -/
def tokMatches : RegexTok → Char → Bool
  | .lit c, d => ciEq c d
  | .alts a₁ a₂ a₃ a₄, d => ciEq a₁ d || ciEq a₂ d || ciEq a₃ d || ciEq a₄ d

/-- Anchored match of a generated pattern against a text: each construct
consumes exactly one character. -/
def patMatch : List Char → List Char → Bool
  | p, [] => p.isEmpty
  | p, d :: ds =>
    match nextTok p with
    | some (t, p₂) => tokMatches t d && patMatch p₂ ds
    | none => false

/-- `re.search`: the pattern matches some contiguous substring of the
text. -/
def pySearch (p : List Char) (t : List Char) : Bool :=
  t.tails.any (fun suf => suf.inits.any (fun sub => patMatch p sub))

/-- The Python regex engine restricted to the pattern fragment that
`_normalize_search_term` emits, under IGNORECASE: `re.search` semantics,
total on these patterns. -/
def fragmentEngineCI (pattern text : String) : Except String Bool :=
  .ok (pySearch pattern.data text.data)

/-! ## `gen_search` (`database_query_functions.py` lines 1481-1710)

The escalation control flow is embedded over a list of per-table search
configurations.  A table carries its configured `search_fields`, its live
column list (`PRAGMA table_info`) and its rows as named nullable text
columns; the regex predicate applied by the `REGEXP` operator is abstracted
as a boolean function on the stored strings (`_regex_search` returns
`False` on NULL, which the row-matching function reproduces). -/

/-- One searched table: configured search fields, live columns, rows. -/
structure SearchTable where
  search_fields : List String
  columns : List String
  rows : List (List (String × Option String))
deriving DecidableEq

/-- Keyword list of `_get_notes_fields` (lines 767-778). -/
def notesKeywords : List String := ["Notes", "Description", "Comments"]

/-- `_get_notes_fields(search_fields)`: the fields containing one of the
keywords as a substring. -/
def getNotesFields (search_fields : List String) : List String :=
  search_fields.filter (fun f => notesKeywords.any (fun k => strContains f k))

/-- Read a named text column from a row; absent columns read as NULL. -/
def getStrCol (row : List (String × Option String)) (c : String) : Option String :=
  match row.find? (fun p => p.1 == c) with
  | some p => p.2
  | none => none

/-- The OR-combined `REGEXP` predicate over the chosen search fields
(lines 1574-1575): a row matches when some field holds a string the
predicate accepts; NULL fields never match (`_regex_search` line 346). -/
def rowMatches (re : String → Bool) (fields : List String)
    (row : List (String × Option String)) : Bool :=
  fields.any (fun f =>
    match getStrCol row f with
    | some s => re s
    | none => false)

/-- Lines 1554-1559: start from the configured `search_fields` and drop the
notes fields unless `include_notes` is `True` (both `False` and the unset
`None` exclude them; the display pass condition `if not include_notes` at
line 1619 selects the same set). -/
def effectiveSearchFields (t : SearchTable) (inc : Option Bool) : List String :=
  if inc = some true then t.search_fields
  else t.search_fields.filter (fun f => f ∉ getNotesFields t.search_fields)

/-- Lines 1554-1581: the per-table `COUNT(*)`; `none` when the table is
skipped by a `continue` (no effective search fields, or none of them exists
in the live schema). -/
def tableCount (t : SearchTable) (re : String → Bool) (inc : Option Bool) : Option Nat :=
  let sf := effectiveSearchFields t inc
  if sf.isEmpty then none
  else
    let valid := sf.filter (fun f => f ∈ t.columns)
    if valid.isEmpty then none
    else some ((t.rows.filter (rowMatches re valid)).length)

/-- `total_results` accumulated at lines 1539, 1582-1588 (only positive
counts are added, which coincides with adding every count). -/
def totalResults (db : List SearchTable) (re : String → Bool) (inc : Option Bool) : Nat :=
  db.foldr (fun t acc => (tableCount t re inc).getD 0 + acc) 0

/-- The third conjunct of the escalation guard at lines 1591-1593:
`any(tables_with_results[t]['notes_fields'] for t in tables_with_results)` —
some table with a positive match count has a non-empty configured
notes-field list. -/
def anyNotesTables (db : List SearchTable) (re : String → Bool) (inc : Option Bool) : Bool :=
  db.any (fun t =>
    (match tableCount t re inc with
      | some n => decide (0 < n)
      | none => false)
    && !(getNotesFields t.search_fields).isEmpty)

/-- The escalation control flow of `gen_search` (lines 1538-1601): on the
first pass with `include_notes` unset, if fewer than 5 aggregate matches
were found and some matching table has notes fields, the notes-inclusion
prompt is shown; accepting re-enters `gen_search` with
`include_notes=True` (where the `include_notes is None` conjunct fails, so
no further prompt), declining proceeds with the first-pass counts.  The
result is `(number of escalation prompts shown, final total match count)`;
`accept` is the console answer to the prompt. -/
def genSearchRun (db : List SearchTable) (re : String → Bool) (accept : Bool) :
    Option Bool → Nat × Nat
  | some b => (0, totalResults db re (some b))
  | none =>
    if totalResults db re none < 5 ∧ anyNotesTables db re none = true then
      if accept then
        ((genSearchRun db re accept (some true)).1 + 1,
          (genSearchRun db re accept (some true)).2)
      else (1, totalResults db re none)
    else (0, totalResults db re none)
termination_by inc => if inc.isNone then 1 else 0

/-- Counterexample data: a table matching the search term twice in its main
fields with no notes fields configured. -/
def cexTableMain : SearchTable :=
  ⟨["Term"], ["Term"], [[("Term", some "x")], [("Term", some "x")]]⟩

/-- Counterexample data: a table whose notes column holds the search term
but whose main field does not. -/
def cexTableNotes : SearchTable :=
  ⟨["Term", "Notes"], ["Term", "Notes"], [[("Term", some "y"), ("Notes", some "x")]]⟩

/-- Counterexample database for the escalation offer. -/
def cexDb : List SearchTable := [cexTableMain, cexTableNotes]

/-- Counterexample predicate: the term matches the stored string `x`. -/
def cexRe (s : String) : Bool := s == "x"

/-- Witness data: a single table with a notes field and one main-field
match. -/
def witDb : List SearchTable :=
  [⟨["Term", "Notes"], ["Term", "Notes"], [[("Term", some "x")]]⟩]

/-! ## Failure policy of `gen_search` rendering (lines 1602-1709) and its
helpers `_display_related_records` (781-841), `_display_definitions`
(844-886), `_display_location_attributes` (889-932)

The whole of `gen_search` runs inside one `try`; each helper wraps its own
query in a nested `try`/`except: pass`.  The per-table loop is embedded as
a list of table outcomes, and the per-row annotation queries as `Except`
values. -/

/-- Outcome of one iteration of the `for table in table_name` loop:
the name was rejected by the `table not in all_tables` check (error printed,
`continue`); the table rendered a listing; or its count/display query
raised. -/
inductive TableStep where
  | notFound : String → TableStep
  | listing : String → TableStep
  | raised : String → TableStep
deriving DecidableEq

/-- The per-table loop under the single enclosing `try` (lines 1502-1709):
an unknown table is skipped and the loop continues; a raised query
exception transfers control to the `except` clause at line 1704, ending the
loop — the already-emitted listings survive, later tables are never
processed.  Result: emitted listings and the printed error, if any. -/
def genSearchTableLoop : List TableStep → List String × Option String
  | [] => ([], none)
  | .notFound _ :: rest => genSearchTableLoop rest
  | .listing l :: rest =>
    ((genSearchTableLoop rest).1.cons l, (genSearchTableLoop rest).2)
  | .raised e :: _ => ([], some e)

/-- The foreign-key annotation queries of a result row (lines 1676-1683):
each single-row lookup runs with no surrounding handler, so an error
propagates; a found display value prints a line, a missing one prints
nothing. -/
def renderFkLines : List (String × Except String (Option String)) →
    Except String (List String)
  | [] => .ok []
  | (label, res) :: rest =>
    match res with
    | .error e => .error e
    | .ok v =>
      match renderFkLines rest with
      | .error e => .error e
      | .ok acc =>
        .ok (match v with
          | some d => (label ++ ": " ++ d) :: acc
          | none => acc)

/-- Name truncation of `_display_related_records` (lines 832-837). -/
def truncNames (names : List String) : String :=
  if 5 < names.length then
    String.intercalate ", " (names.take 5) ++ " (+" ++ toString (names.length - 5) ++ " more)"
  else String.intercalate ", " names

/-- One relationship of `_display_related_records` (lines 809-841): the
junction query result, or its error, is `res`; an error is silently
swallowed (`except: pass`), an empty result or all-NULL display values
print nothing. -/
def relLine (label : String) (res : Except String (List (Option String))) :
    Option String :=
  match res with
  | .error _ => none
  | .ok related =>
    if related.isEmpty then none
    else
      let names := related.filterMap id
      if names.isEmpty then none
      else some (label ++ ": " ++ truncNames names)

/-- `_display_related_records`: one line per relationship, errors
omitted. -/
def renderRelLines (lookups : List (String × Except String (List (Option String)))) :
    List String :=
  lookups.filterMap (fun p => relLine p.1 p.2)

/-- One definition row of `_display_definitions` (lines 869-886):
`(Definition, Type)`; NULL definitions are skipped, long ones truncated. -/
def defLine (p : Option String × Option String) : Option String :=
  match p.1 with
  | none => none
  | some d =>
    let d₂ := if 200 < d.length then String.mk (d.data.take 200) ++ "..." else d
    match p.2 with
    | some ty => some ("[" ++ ty ++ "] " ++ d₂)
    | none => some d₂

/-- `_display_definitions`: the query result or its error; an error is
silently swallowed. -/
def renderDefLines (res : Except String (List (Option String × Option String))) :
    List String :=
  match res with
  | .error _ => []
  | .ok defs => defs.filterMap defLine

/-- One attribute row of `_display_location_attributes` (lines 915-929):
`(Type, Value, Start_Date_Greg, End_Date_Greg)`; rows lacking type or value
print nothing. -/
def locLine (q : Option String × Option String × Option String × Option String) :
    Option String :=
  match q.1, q.2.1 with
  | some ty, some v =>
    some (ty ++ ": " ++ v ++
      (match q.2.2.1, q.2.2.2 with
        | none, none => ""
        | s, e => " (" ++ (s.getD "?") ++ " - " ++ (e.getD "?") ++ ")"))
  | _, _ => none

/-- `_display_location_attributes`: the query result or its error; an error
is silently swallowed. -/
def renderLocLines
    (res : Except String (List (Option String × Option String × Option String × Option String))) :
    List String :=
  match res with
  | .error _ => []
  | .ok attrs => attrs.filterMap locLine

/-- The per-row annotation block of `gen_search` (lines 1675-1695): foreign
keys first (unprotected — an error escapes to the global handler), then
junction relationships, definitions and location attributes (each helper
swallows its own errors). -/
def renderRowExtras (fks : List (String × Except String (Option String)))
    (rels : List (String × Except String (List (Option String))))
    (defs : Option (Except String (List (Option String × Option String))))
    (locs : Option (Except String (List (Option String × Option String × Option String × Option String)))) :
    Except String (List String) :=
  match renderFkLines fks with
  | .error e => .error e
  | .ok fkLines =>
    .ok (fkLines ++ renderRelLines rels
      ++ (match defs with | some r => renderDefLines r | none => [])
      ++ (match locs with | some r => renderLocLines r | none => []))

/-! ## Connection lifecycle (spec section 5)

Each function that opens a connection is embedded as a map from the outcome
of its query phase (which may raise) to its result together with the final
state of the connection and cursor it opened.  `database_info` (lines
57-96) and `word_search` (lines 358-560) close in `finally`;
`get_unique_values` (lines 315-334) and `_get_next_uid` (crud lines
155-166) have no cleanup block, so the closes at the end of their bodies
are skipped when the query raises. -/

/-- Final state of the connection/cursor pair a function opened. -/
structure ConnState where
  connClosed : Bool
  cursorClosed : Bool
deriving DecidableEq

/-- `get_unique_values(table_name, column_name)` (query module lines
315-334): connect, execute the DISTINCT query, fetch, close, return — with
no `try`.  A raising query propagates before either close runs. -/
def getUniqueValuesRun (q : Except String (List (Option Int))) :
    Except String (List (Option Int)) × ConnState :=
  match q with
  | .ok vs => (.ok vs, ⟨true, true⟩)
  | .error e => (.error e, ⟨false, false⟩)

/-- `_get_next_uid(table_name)` (crud lines 155-166): same shape, no
`try`; on success the returned value is `(max_uid or 0) + 1`. -/
def getNextUidRun (q : Except String (Option Int)) : Except String Int × ConnState :=
  match q with
  | .ok m => (.ok (pyOrZero m + 1), ⟨true, true⟩)
  | .error e => (.error e, ⟨false, false⟩)

/-- `word_search(...)` (lines 358-560): the body runs in
`try ... except Exception: print ... finally: close`.  The first component
is the error message printed, if any; the connection and cursor are closed
on both paths. -/
def wordSearchRun (q : Except String Nat) : Option String × ConnState :=
  (match q with
    | .ok _ => none
    | .error e => some e,
   ⟨true, true⟩)

/-- `database_info(...)` (lines 57-96): `try ... finally: close` with no
`except` — an exception propagates to the caller but the connection and
cursor are closed first. -/
def databaseInfoRun (q : Except String (List String)) :
    Except String (List String) × ConnState :=
  (q, ⟨true, true⟩)

/-! ## `new_lex` (`database_crud_functions.py` lines 1159-1287)

One connection, one transaction: the lexicon INSERT, then a loop of
definition INSERTs, then a single `conn.commit()`; the enclosing
`except Exception` does `conn.rollback()` and returns `None`.  The
database state is the pair of committed tables; statements execute against
the pending (uncommitted) state and are embedded as the row each INSERT
would add, or the error it raises. -/

/-- Committed database state touched by `new_lex`: the lexicon table
(UID, Term) and the definitions table (UID, Lexicon_ID, Definition). -/
structure LexDb where
  lexicon : List (Int × String)
  definitions : List (Int × Int × String)
deriving DecidableEq

/-- The definition-creation loop (lines 1216-1268): each iteration either
raises (anywhere: `_get_next_uid`, the prompts, the INSERT) or adds one
definition row to the pending state.  The first error aborts the loop. -/
def runDefLoop (pending : LexDb) : List (Except String (Int × Int × String)) →
    Except String LexDb
  | [] => .ok pending
  | .error e :: _ => .error e
  | .ok row :: rest =>
    runDefLoop { pending with definitions := pending.definitions ++ [row] } rest

/-- `new_lex`: the lexicon INSERT outcome, then the definition loop, then
the single commit (line 1271).  Any error reaches the handler at line 1282:
rollback (the committed state is returned unchanged) and `None`. -/
def newLexRun (db : LexDb) (lexStep : Except String (Int × String))
    (defSteps : List (Except String (Int × Int × String))) : Option Int × LexDb :=
  match lexStep with
  | .error _ => (none, db)
  | .ok lexRow =>
    match runDefLoop { db with lexicon := db.lexicon ++ [lexRow] } defSteps with
    | .error _ => (none, db)
    | .ok finalState => (some lexRow.1, finalState)

/-! ### Facts about the generated patterns -/

theorem ciEq_refl (c : Char) : ciEq c c = true := by simp [ciEq]

theorem nextTok_group (ps : List Char) :
    nextTok (aposGroup ++ ps) = some (.alts aposQuote aposQuote aposOkina aposGrave, ps) := by
  simp [aposGroup, nextTok, aposQuote, aposOkina, aposGrave]

theorem patMatch_group (ps : List Char) (d : Char) (ds : List Char) :
    patMatch (aposGroup ++ ps) (d :: ds) =
      ((ciEq aposQuote d || ciEq aposQuote d || ciEq aposOkina d || ciEq aposGrave d)
        && patMatch ps ds) := by
  simp [patMatch, nextTok_group, tokMatches]

theorem patMatch_escaped (c : Char) (ps : List Char) (d : Char) (ds : List Char) :
    patMatch ('\\' :: c :: ps) (d :: ds) = (ciEq c d && patMatch ps ds) := by
  simp [patMatch, nextTok, tokMatches]

theorem patMatch_lit (c : Char) (hb : c ≠ '\\') (hp : c ≠ '(') (ps : List Char)
    (d : Char) (ds : List Char) :
    patMatch (c :: ps) (d :: ds) = (ciEq c d && patMatch ps ds) := by
  simp [patMatch, nextTok, hb, hp, tokMatches]

/-- Core soundness of the apostrophe normalization: if `f` rewrites each
character of the term, mapping members of the substituted class to members
of the class and leaving everything else unchanged, then the normalized
pattern matches the rewritten term. -/
theorem patMatch_normalize (f : Char → Char) : ∀ cs : List Char,
    (∀ c ∈ cs, (c ∉ aposClass → f c = c) ∧ (c ∈ aposClass → f c ∈ aposClass)) →
    patMatch (aposSubChars (escapeChars cs)) (cs.map f) = true := by
  intro cs
  induction cs with
  | nil => intro _; rfl
  | cons c cs ih =>
    intro hf
    have hc := hf c (by simp)
    have hrest : ∀ x ∈ cs, (x ∉ aposClass → f x = x) ∧ (x ∈ aposClass → f x ∈ aposClass) :=
      fun x hx => hf x (by simp [hx])
    by_cases ha : c ∈ aposClass
    · have hmeta : c ∉ regexMeta := by
        have h : ∀ x ∈ aposClass, x ∉ regexMeta := by decide
        exact h c ha
      have hfc : f c ∈ aposClass := hc.2 ha
      rw [show escapeChars (c :: cs) = c :: escapeChars cs by
        rw [escapeChars, if_neg hmeta]; rfl]
      rw [show aposSubChars (c :: escapeChars cs)
            = aposGroup ++ aposSubChars (escapeChars cs) by
        rw [aposSubChars, if_pos ha]]
      rw [List.map_cons, patMatch_group, ih hrest, Bool.and_true]
      have h : ∀ x ∈ aposClass,
          (ciEq aposQuote x || ciEq aposQuote x || ciEq aposOkina x || ciEq aposGrave x)
            = true := by
        decide
      exact h (f c) hfc
    · have hfc : f c = c := hc.1 ha
      by_cases hm : c ∈ regexMeta
      · rw [show escapeChars (c :: cs) = '\\' :: c :: escapeChars cs by
          rw [escapeChars, if_pos hm]; rfl]
        have hbs : ('\\' : Char) ∉ aposClass := by decide
        rw [show aposSubChars ('\\' :: c :: escapeChars cs)
              = '\\' :: aposSubChars (c :: escapeChars cs) by
          rw [aposSubChars, if_neg hbs]; rfl]
        rw [show aposSubChars (c :: escapeChars cs)
              = c :: aposSubChars (escapeChars cs) by
          rw [aposSubChars, if_neg ha]; rfl]
        rw [List.map_cons, patMatch_escaped, hfc, ciEq_refl, ih hrest]
        rfl
      · rw [show escapeChars (c :: cs) = c :: escapeChars cs by
          rw [escapeChars, if_neg hm]; rfl]
        rw [show aposSubChars (c :: escapeChars cs)
              = c :: aposSubChars (escapeChars cs) by
          rw [aposSubChars, if_neg ha]; rfl]
        have hnb : c ≠ '\\' := by intro h; exact hm (by rw [h]; decide)
        have hnp : c ≠ '(' := by intro h; exact hm (by rw [h]; decide)
        rw [List.map_cons, patMatch_lit c hnb hnp, hfc, ciEq_refl, ih hrest]
        rfl

/-- A full anchored match is in particular found by `re.search`. -/
theorem pySearch_of_patMatch (p t : List Char) (h : patMatch p t = true) :
    pySearch p t = true := by
  rw [pySearch, List.any_eq_true]
  refine ⟨t, ?_, ?_⟩
  · rw [List.mem_tails]
  · rw [List.any_eq_true]
    refine ⟨t, ?_, h⟩
    rw [List.mem_inits]

/-! ### Helper lemmas -/

theorem sqlMax_append_some (t : List (Option Int)) (v : Int) :
    sqlMax (t ++ [some v]) =
      some (match sqlMax t with | none => v | some w => max w v) := by
  induction t with
  | nil => rfl
  | cons o t ih =>
    cases o with
    | none =>
      rw [List.cons_append]
      rw [show sqlMax (none :: (t ++ [some v])) = sqlMax (t ++ [some v]) from rfl]
      rw [ih]
      rfl
    | some w =>
      rw [List.cons_append]
      rw [show sqlMax (some w :: (t ++ [some v]))
            = (match sqlMax (t ++ [some v]) with
                | none => some w
                | some u => some (max w u)) from rfl]
      rw [ih]
      cases h : sqlMax t with
      | none => simp [sqlMax, h]
      | some u => simp [sqlMax, h, max_assoc]

theorem runDefLoop_error :
    ∀ defSteps : List (Except String (Int × Int × String)),
    defSteps.any (fun s => !s.isOk) = true →
    ∃ e, ∀ p : LexDb, runDefLoop p defSteps = .error e := by
  intro defSteps
  induction defSteps with
  | nil => intro h; simp at h
  | cons s rest ih =>
    intro h
    cases s with
    | error e => exact ⟨e, fun p => rfl⟩
    | ok row =>
      have h₂ : rest.any (fun s => !s.isOk) = true := by
        rw [List.any_cons] at h
        simpa [Except.isOk, Except.toBool] using h
      obtain ⟨e, he⟩ := ih h₂
      exact ⟨e, fun p => he _⟩

theorem mem_warnFold (name target : String) (uid : Int) (rows : List Row) :
    ∀ (fks : List FKDecl) (acc : List (String × String × Nat))
      (x : String × String × Nat),
    (x ∈ fks.foldr (fun fk acc₂ =>
      if fk.refTable == target then
        if 0 < countRefs rows fk.fromCol uid then
          (name, fk.fromCol, countRefs rows fk.fromCol uid) :: acc₂
        else acc₂
      else acc₂) acc) ↔
      (∃ fk ∈ fks, fk.refTable = target ∧ 0 < countRefs rows fk.fromCol uid ∧
        x = (name, fk.fromCol, countRefs rows fk.fromCol uid)) ∨ x ∈ acc := by
  intro fks
  induction fks with
  | nil => intro acc x; simp
  | cons fk fks ih =>
    intro acc x
    rw [List.foldr_cons]
    by_cases h₁ : fk.refTable = target
    · by_cases h₂ : 0 < countRefs rows fk.fromCol uid
      · rw [if_pos (by simp [h₁]), if_pos h₂]
        simp only [List.mem_cons, ih, List.mem_cons]
        constructor
        · rintro (hx | h | hacc)
          · exact Or.inl ⟨fk, by simp, h₁, h₂, hx⟩
          · obtain ⟨g, hg, hrest⟩ := h
            exact Or.inl ⟨g, by simp [hg], hrest⟩
          · exact Or.inr hacc
        · rintro (⟨g, hg | hg, hrest⟩ | hacc)
          · subst hg
            exact Or.inl hrest.2.2
          · exact Or.inr (Or.inl ⟨g, hg, hrest⟩)
          · exact Or.inr (Or.inr hacc)
      · rw [if_pos (by simp [h₁]), if_neg h₂]
        rw [ih]
        constructor
        · rintro (⟨g, hg, hrest⟩ | hacc)
          · exact Or.inl ⟨g, by simp [hg], hrest⟩
          · exact Or.inr hacc
        · rintro (⟨g, hg, hrest⟩ | hacc)
          · rcases List.mem_cons.mp hg with hg | hg
            · subst hg
              exact absurd hrest.2.1 h₂
            · exact Or.inl ⟨g, hg, hrest⟩
          · exact Or.inr hacc
    · rw [if_neg (by simp [h₁])]
      rw [ih]
      constructor
      · rintro (⟨g, hg, hrest⟩ | hacc)
        · exact Or.inl ⟨g, by simp [hg], hrest⟩
        · exact Or.inr hacc
      · rintro (⟨g, hg, hrest⟩ | hacc)
        · rcases List.mem_cons.mp hg with hg | hg
          · subst hg
            exact absurd hrest.1 h₁
          · exact Or.inl ⟨g, hg, hrest⟩
        · exact Or.inr hacc

theorem mem_tableWarnings (t : DbTable) (target : String) (uid : Int)
    (x : String × String × Nat) :
    x ∈ tableWarnings t target uid ↔
      t.name ≠ target ∧ ∃ fk ∈ t.fks, fk.refTable = target ∧
        0 < countRefs t.rows fk.fromCol uid ∧
        x = (t.name, fk.fromCol, countRefs t.rows fk.fromCol uid) := by
  rw [tableWarnings]
  by_cases h : t.name = target
  · rw [if_pos (by simp [h])]
    simp [h]
  · rw [if_neg (by simp [h])]
    rw [mem_warnFold]
    simp [h]

theorem mem_relatedRecords (db : List DbTable) (target : String) (uid : Int)
    (x : String × String × Nat) :
    x ∈ relatedRecords db target uid ↔
      ∃ t ∈ db, t.name ≠ target ∧ ∃ fk ∈ t.fks, fk.refTable = target ∧
        0 < countRefs t.rows fk.fromCol uid ∧
        x = (t.name, fk.fromCol, countRefs t.rows fk.fromCol uid) := by
  induction db with
  | nil => simp [relatedRecords]
  | cons t db ih =>
    rw [show relatedRecords (t :: db) target uid
          = tableWarnings t target uid ++ relatedRecords db target uid from rfl]
    rw [List.mem_append, mem_tableWarnings, ih]
    constructor
    · rintro (h | ⟨u, hu, hrest⟩)
      · exact ⟨t, by simp, h⟩
      · exact ⟨u, by simp [hu], hrest⟩
    · rintro ⟨u, hu, hrest⟩
      rcases List.mem_cons.mp hu with hu | hu
      · subst hu
        exact Or.inl hrest
      · exact Or.inr ⟨u, hu, hrest⟩

theorem genSearchRun_some (db : List SearchTable) (re : String → Bool)
    (accept : Bool) (b : Bool) :
    genSearchRun db re accept (some b) = (0, totalResults db re (some b)) := by
  simp [genSearchRun]

theorem genSearchRun_none (db : List SearchTable) (re : String → Bool)
    (accept : Bool) :
    genSearchRun db re accept none =
      if totalResults db re none < 5 ∧ anyNotesTables db re none = true then
        if accept then (1, totalResults db re (some true))
        else (1, totalResults db re none)
      else (0, totalResults db re none) := by
  simp only [genSearchRun]

/-! ## The claims -/

/-- C1 counterexample: the confirmation line is read with `.strip()`
(line 1110), so the input `" DELETE"` — which is not the literal string
`"DELETE"` — still passes the gate and the row is deleted. -/
theorem delete_confirm_strip_cex :
    (" DELETE" : String) ≠ "DELETE" ∧
    deleteEntryConfirm [⟨"lexicon", [], [⟨7, []⟩]⟩] "lexicon" 7 " DELETE"
      = (true, [⟨"lexicon", [], []⟩]) := by
  constructor
  · decide
  · decide

/-- C1 (amended): `delete_entry` issues its DELETE statement if and only if
the confirmation input, after stripping leading and trailing whitespace,
equals the literal string `"DELETE"`; for any input whose stripped form
differs it returns `False` and leaves the database unchanged. -/
theorem delete_confirm_iff (db : List DbTable) (target : String) (uid : Int)
    (confirm : String) :
    ((deleteEntryConfirm db target uid confirm).1 = true ↔
      pyStrip confirm = "DELETE") ∧
    (pyStrip confirm ≠ "DELETE" →
      deleteEntryConfirm db target uid confirm = (false, db)) := by
  by_cases hs : pyStrip confirm = "DELETE"
  · refine ⟨?_, fun h => absurd hs h⟩
    simp [deleteEntryConfirm, hs]
  · refine ⟨?_, fun _ => ?_⟩
    · simp [deleteEntryConfirm, hs]
    · simp [deleteEntryConfirm, hs]

/-- C1 witness: a declined confirmation on a concrete database. -/
theorem delete_confirm_iff_witness :
    pyStrip "no" ≠ "DELETE" ∧
    deleteEntryConfirm [⟨"lexicon", [], [⟨7, []⟩]⟩] "lexicon" 7 "no"
      = (false, [⟨"lexicon", [], [⟨7, []⟩]⟩]) :=
  ⟨by decide,
    (delete_confirm_iff [⟨"lexicon", [], [⟨7, []⟩]⟩] "lexicon" 7 "no").2 (by decide)⟩

/-- C2: `_get_next_uid` returns 1 on an empty table; when the maximum
existing UID is `N` it returns `N + 1`, and after appending a row carrying
that returned UID a repeated call returns `N + 2`. -/
theorem next_uid_spec (t : List (Option Int)) (N : Int) (h : sqlMax t = some N) :
    getNextUid [] = 1 ∧ getNextUid t = N + 1 ∧
    getNextUid (t ++ [some (getNextUid t)]) = N + 2 := by
  have h₁ : getNextUid t = N + 1 := by
    rw [getNextUid, h]
    by_cases h0 : N = 0
    · simp [pyOrZero, h0]
    · simp [pyOrZero, h0]
  refine ⟨rfl, h₁, ?_⟩
  rw [h₁, getNextUid, sqlMax_append_some, h]
  have hmax : max N (N + 1) = N + 1 := by omega
  rw [show (match some N with
        | none => N + 1
        | some w => max w (N + 1)) = max N (N + 1) from rfl, hmax]
  by_cases h0 : N + 1 = 0
  · rw [show pyOrZero (some (N + 1)) = 0 by simp [pyOrZero, h0]]
    omega
  · rw [show pyOrZero (some (N + 1)) = N + 1 by simp [pyOrZero, h0]]
    omega

/-- C2 witness: a table whose maximum UID is 3 (with a NULL UID ignored by
`MAX`). -/
theorem next_uid_spec_witness :
    sqlMax [some 2, none, some 3] = some 3 ∧
    (getNextUid [] = 1 ∧ getNextUid [some 2, none, some 3] = 3 + 1 ∧
      getNextUid ([some 2, none, some 3]
        ++ [some (getNextUid [some 2, none, some 3])]) = 3 + 2) :=
  ⟨by decide, next_uid_spec [some 2, none, some 3] 3 (by decide)⟩

/-- C3 counterexample: a first pass finding 2 aggregate matches (below the
threshold 5) with `include_notes` unset, where the only notes-bearing table
has zero first-pass matches — its notes column does hold the term, as the
escalated total 3 shows — yet no escalation offer is made (`0` prompts),
because the guard at lines 1591-1593 also requires a table with a positive
match count to have configured notes fields. -/
theorem gen_search_offer_cex :
    totalResults cexDb cexRe none = 2 ∧
    genSearchRun cexDb cexRe true none = (0, 2) ∧
    totalResults cexDb cexRe (some true) = 3 := by
  refine ⟨by decide, ?_, by decide⟩
  rw [genSearchRun_none]
  rw [if_neg]
  · decide
  · decide

/-- C3 (amended): when `gen_search` runs with `include_notes` unset, the
first pass (notes fields excluded) finds fewer than 5 aggregate matches,
and at least one table with a positive first-pass match count has
configured Notes/Description/Comments search fields, then exactly one
notes-inclusion offer is made; declining it leaves the total at the
first-pass value, accepting performs a single escalated search (notes
included) in which no further offer is made. -/
theorem gen_search_escalation (db : List SearchTable) (re : String → Bool)
    (accept : Bool)
    (hlow : totalResults db re none < 5)
    (hnotes : anyNotesTables db re none = true) :
    (genSearchRun db re accept none).1 = 1 ∧
    (accept = false → (genSearchRun db re accept none).2 = totalResults db re none) ∧
    (accept = true → (genSearchRun db re accept none).2 = totalResults db re (some true)) ∧
    (∀ b, (genSearchRun db re accept (some b)).1 = 0) := by
  rw [genSearchRun_none, if_pos ⟨hlow, hnotes⟩]
  cases accept with
  | false => simp [genSearchRun_some]
  | true => simp [genSearchRun_some]

/-- C3 witness: one table with a notes field and one first-pass match;
declining the offer keeps the total at 1. -/
theorem gen_search_escalation_witness :
    (totalResults witDb cexRe none < 5 ∧ anyNotesTables witDb cexRe none = true) ∧
    ((genSearchRun witDb cexRe false none).1 = 1 ∧
      (false = false →
        (genSearchRun witDb cexRe false none).2 = totalResults witDb cexRe none) ∧
      (false = true →
        (genSearchRun witDb cexRe false none).2 = totalResults witDb cexRe (some true)) ∧
      (∀ b, (genSearchRun witDb cexRe false (some b)).1 = 0)) :=
  ⟨⟨by decide, by decide⟩,
    gen_search_escalation witDb cexRe false (by decide) (by decide)⟩

/-- C4 counterexample: a raised top-level query in the first table reaches
the enclosing handler and ends the whole search — the second table, which
would have rendered, is never processed — contradicting the claim that the
failure aborts only that table's listing; and an error in a per-row
foreign-key lookup (which runs with no nested handler) is not swallowed but
propagates out of the row renderer. -/
theorem gen_search_failure_cex :
    genSearchTableLoop [.raised "query failed", .listing "second table"]
      = ([], some "query failed") ∧
    renderRowExtras [("Repository", .error "fk lookup failed")] [] none none
      = .error "fk lookup failed" := by
  constructor
  · rfl
  · rfl

/-- C4 (amended): junction-table related-records lookups, definitions
lookups and location-attribute lookups each run under their own
`except: pass`, so an error there only omits that annotation and leaves
every other annotation unchanged; an unknown table name aborts only that
table's listing (error message, loop continues); but a per-row foreign-key
lookup error and a failure in a table's top-level search query both escape
to the single enclosing handler, ending the whole search — later tables are
not processed. -/
theorem gen_search_error_policy :
    (∀ lookups : List (String × Except String (List (Option String))),
      renderRelLines lookups = renderRelLines (lookups.filter (fun p => p.2.isOk))) ∧
    (∀ e : String, renderDefLines (.error e) = []) ∧
    (∀ e : String, renderLocLines (.error e) = []) ∧
    (∀ (name : String) (rest : List TableStep),
      genSearchTableLoop (.notFound name :: rest) = genSearchTableLoop rest) ∧
    (∀ (e : String) (rest : List TableStep),
      genSearchTableLoop (.raised e :: rest) = ([], some e)) ∧
    (∀ (label e : String) (fks : List (String × Except String (Option String)))
        (rels : List (String × Except String (List (Option String))))
        (defs : Option (Except String (List (Option String × Option String))))
        (locs : Option (Except String (List (Option String × Option String × Option String × Option String)))),
      renderRowExtras ((label, .error e) :: fks) rels defs locs = .error e) := by
  refine ⟨?_, fun e => rfl, fun e => rfl, fun name rest => rfl, fun e rest => rfl,
    fun label e fks rels defs locs => rfl⟩
  intro lookups
  induction lookups with
  | nil => rfl
  | cons p rest ih =>
    cases hp : p.2 with
    | error e =>
      rw [show renderRelLines (p :: rest)
            = renderRelLines rest by
          rw [renderRelLines, renderRelLines, List.filterMap_cons]
          rw [show relLine p.1 p.2 = none by rw [hp]; rfl]]
      rw [ih, List.filter_cons]
      rw [show (p.2.isOk : Bool) = false by rw [hp]; rfl]
      simp
    | ok v =>
      rw [show renderRelLines (p :: rest)
            = (relLine p.1 p.2).toList ++ renderRelLines rest by
          rw [renderRelLines, renderRelLines, List.filterMap_cons]
          cases relLine p.1 p.2 <;> rfl]
      rw [ih, List.filter_cons]
      rw [show (p.2.isOk : Bool) = true by rw [hp]; rfl]
      rw [if_pos rfl]
      rw [show renderRelLines (p :: List.filter (fun p => p.2.isOk) rest)
            = (relLine p.1 p.2).toList
              ++ renderRelLines (List.filter (fun p => p.2.isOk) rest) by
          rw [renderRelLines, renderRelLines, List.filterMap_cons]
          cases relLine p.1 p.2 <;> rfl]

/-- C5: before the confirmation prompt, `delete_entry` enumerates exactly
the `(table, column, count)` triples with a positive count of rows whose
declared foreign-key column (declared against the target table, in a table
other than the target) equals the target UID — every such triple appears,
every listed triple is such — and the deletion decision depends only on the
confirmation string, not on the warnings. -/
theorem delete_warnings_spec (db : List DbTable) (target : String) (uid : Int) :
    (∀ t ∈ db, t.name ≠ target → ∀ fk ∈ t.fks, fk.refTable = target →
      0 < countRefs t.rows fk.fromCol uid →
      (t.name, fk.fromCol, countRefs t.rows fk.fromCol uid)
        ∈ relatedRecords db target uid) ∧
    (∀ x ∈ relatedRecords db target uid, 0 < x.2.2 ∧
      ∃ t ∈ db, t.name = x.1 ∧ x.1 ≠ target ∧
        ∃ fk ∈ t.fks, fk.refTable = target ∧ fk.fromCol = x.2.1 ∧
          countRefs t.rows fk.fromCol uid = x.2.2) ∧
    (∀ confirm : String,
      (deleteEntryModel db target uid confirm).1 = relatedRecords db target uid ∧
      (deleteEntryModel db target uid confirm).2.1 = (pyStrip confirm == "DELETE")) := by
  refine ⟨?_, ?_, ?_⟩
  · intro t ht hname fk hfk href hcnt
    rw [mem_relatedRecords]
    exact ⟨t, ht, hname, fk, hfk, href, hcnt, rfl⟩
  · intro x hx
    rw [mem_relatedRecords] at hx
    obtain ⟨t, ht, hname, fk, hfk, href, hcnt, hx⟩ := hx
    subst hx
    exact ⟨hcnt, t, ht, rfl, hname, fk, hfk, href, rfl, rfl⟩
  · intro confirm
    refine ⟨rfl, ?_⟩
    rw [deleteEntryModel, deleteEntryConfirm]
    by_cases h : pyStrip confirm == "DELETE"
    · rw [if_pos h, h]
    · rw [if_neg (by simpa using h)]
      simp at h
      simp [h]

/-- C5 witness: a `definitions` table with one row referencing lexicon UID 7
through its declared `Lexicon_ID` foreign key yields the warning triple, and
the deletion decision matches the stripped confirmation. -/
theorem delete_warnings_spec_witness :
    (0 < countRefs [⟨1, [("Lexicon_ID", some 7)]⟩] "Lexicon_ID" 7) ∧
    ("definitions", "Lexicon_ID", countRefs [⟨1, [("Lexicon_ID", some 7)]⟩] "Lexicon_ID" 7)
      ∈ relatedRecords
          [⟨"definitions", [⟨"lexicon", "Lexicon_ID"⟩], [⟨1, [("Lexicon_ID", some 7)]⟩]⟩]
          "lexicon" 7 :=
  ⟨by decide,
    (delete_warnings_spec
        [⟨"definitions", [⟨"lexicon", "Lexicon_ID"⟩], [⟨1, [("Lexicon_ID", some 7)]⟩]⟩]
        "lexicon" 7).1
      ⟨"definitions", [⟨"lexicon", "Lexicon_ID"⟩], [⟨1, [("Lexicon_ID", some 7)]⟩]⟩
      (by decide) (by decide)
      ⟨"lexicon", "Lexicon_ID"⟩ (by decide) (by decide) (by decide)⟩

/-- C6: the source comment (crud line 228) documents four recognized
apostrophe variants including U+2019, but the substitution class and the
alternation group in the code contain only U+0027, U+02BB and U+0060:
a term containing U+2019 is normalized to itself (no alternation), the
pattern derived from U+0027 does not match text using U+2019 and vice
versa, while the variants actually present in the code do round-trip. -/
theorem normalize_u2019_not_handled :
    normalizeSearchTerm (String.mk ['a', aposRight, 'b'])
      = String.mk ['a', aposRight, 'b'] ∧
    pySearch (normalizeSearchTerm (String.mk ['a', aposQuote, 'b'])).data
      ['a', aposRight, 'b'] = false ∧
    pySearch (normalizeSearchTerm (String.mk ['a', aposRight, 'b'])).data
      ['a', aposQuote, 'b'] = false ∧
    pySearch (normalizeSearchTerm (String.mk ['a', aposQuote, 'b'])).data
      ['a', aposOkina, 'b'] = true ∧
    pySearch (normalizeSearchTerm (String.mk ['a', aposQuote, 'b'])).data
      ['a', aposGrave, 'b'] = true := by
  refine ⟨by decide, by decide, by decide, by decide, by decide⟩

/-- C7: both registered REGEXP callbacks always return a boolean (never
propagate an exception), and on any non-string operand they return `False`,
whatever the pattern and whatever the regex engine does. -/
theorem regex_non_string_false (engine engineCI : String → String → Except String Bool)
    (pattern : String) (v : SqlValue) :
    (∃ b, regexSearch engine pattern v = .ok b) ∧
    (∃ b, regexSearchCI engineCI pattern v = .ok b) ∧
    (v.isStr = false →
      regexSearch engine pattern v = .ok false ∧
      regexSearchCI engineCI pattern v = .ok false) := by
  cases v with
  | text s =>
    refine ⟨?_, ?_, fun h => by cases h⟩
    · rw [regexSearch]
      cases engine pattern s with
      | ok b => exact ⟨b, rfl⟩
      | error e => exact ⟨false, rfl⟩
    · rw [regexSearchCI]
      cases engineCI pattern s with
      | ok b => exact ⟨b, rfl⟩
      | error e => exact ⟨false, rfl⟩
  | null => exact ⟨⟨false, rfl⟩, ⟨false, rfl⟩, fun _ => ⟨rfl, rfl⟩⟩
  | int n => exact ⟨⟨false, rfl⟩, ⟨false, rfl⟩, fun _ => ⟨rfl, rfl⟩⟩
  | real a b => exact ⟨⟨false, rfl⟩, ⟨false, rfl⟩, fun _ => ⟨rfl, rfl⟩⟩
  | blob bs => exact ⟨⟨false, rfl⟩, ⟨false, rfl⟩, fun _ => ⟨rfl, rfl⟩⟩

/-- C7 witness: an integer operand yields `False` from both callbacks even
under an engine that always raises. -/
theorem regex_non_string_false_witness :
    SqlValue.isStr (SqlValue.int 3) = false ∧
    (regexSearch (fun _ _ => Except.error "boom") "pat" (SqlValue.int 3)
        = .ok false ∧
      regexSearchCI (fun _ _ => Except.error "boom") "pat" (SqlValue.int 3)
        = .ok false) :=
  ⟨rfl,
    (regex_non_string_false (fun _ _ => Except.error "boom")
      (fun _ _ => Except.error "boom") "pat" (SqlValue.int 3)).2.2 rfl⟩

/-- C8: if the lexicon INSERT or any step of the definition-creation loop
raises before the single final commit, `new_lex` rolls back — the committed
state is returned unchanged, with neither the lexicon row nor any
definition row persisted — and returns `None`. -/
theorem new_lex_rollback (db : LexDb) (lexStep : Except String (Int × String))
    (defSteps : List (Except String (Int × Int × String)))
    (h : lexStep.isOk = false ∨ defSteps.any (fun s => !s.isOk) = true) :
    newLexRun db lexStep defSteps = (none, db) := by
  cases lexStep with
  | error e => rfl
  | ok lexRow =>
    rcases h with h | h
    · cases h
    · obtain ⟨e, he⟩ := runDefLoop_error defSteps h
      rw [newLexRun, he]

/-- C8 witness: the lexicon row is inserted into the pending transaction,
the first definition INSERT raises, and the committed state (a prior
lexicon entry, no definitions) is returned unchanged with result `None`. -/
theorem new_lex_rollback_witness :
    ((Except.ok (5, "term") : Except String (Int × String)).isOk = false ∨
      ([Except.error "NOT NULL constraint failed"] :
        List (Except String (Int × Int × String))).any (fun s => !s.isOk) = true) ∧
    newLexRun ⟨[(1, "w")], []⟩ (.ok (5, "term"))
      [.error "NOT NULL constraint failed"] = (none, ⟨[(1, "w")], []⟩) :=
  ⟨Or.inr (by decide),
    new_lex_rollback ⟨[(1, "w")], []⟩ (.ok (5, "term"))
      [.error "NOT NULL constraint failed"] (Or.inr (by decide))⟩

/-- C9 counterexample: `get_unique_values` has no cleanup block, so when
its query raises, the function propagates the exception with both the
connection and the cursor it opened still open — they do survive the
call. -/
theorem connection_leak_cex :
    getUniqueValuesRun (.error "no such column: X")
      = (.error "no such column: X", ⟨false, false⟩) ∧
    getNextUidRun (.error "no such table: Y")
      = (.error "no such table: Y", ⟨false, false⟩) := by
  constructor
  · rfl
  · rfl

/-- C9 (amended): every function opens its own connection and cursor and
closes both on the successful path; the functions with explicit cleanup
blocks (`database_info`, `word_search`) close them on exception paths too,
but `get_unique_values` and `_get_next_uid` have no cleanup block and leave
both open when the query raises. -/
theorem connection_lifecycle (qU : Except String (List (Option Int)))
    (qN : Except String (Option Int)) (qW : Except String Nat)
    (qI : Except String (List String)) :
    ((getUniqueValuesRun qU).2 = ⟨true, true⟩ ↔ qU.isOk = true) ∧
    ((getNextUidRun qN).2 = ⟨true, true⟩ ↔ qN.isOk = true) ∧
    (wordSearchRun qW).2 = ⟨true, true⟩ ∧
    (databaseInfoRun qI).2 = ⟨true, true⟩ := by
  refine ⟨?_, ?_, rfl, rfl⟩
  · cases qU with
    | ok vs => exact ⟨fun _ => rfl, fun _ => rfl⟩
    | error e =>
      constructor
      · intro h
        cases h
      · intro h
        cases h
  · cases qN with
    | ok m => exact ⟨fun _ => rfl, fun _ => rfl⟩
    | error e =>
      constructor
      · intro h
        cases h
      · intro h
        cases h

/-- C10: for every string, the pattern `_normalize_search_term` produces
matches the original term itself under the mutation module's
case-insensitive REGEXP predicate (with the engine giving `re.search`
semantics on the generated fragment). -/
theorem normalize_self_match (s : String) :
    regexSearchCI fragmentEngineCI (normalizeSearchTerm s) (SqlValue.text s)
      = .ok true := by
  have h := patMatch_normalize id s.data (fun c _ => ⟨fun _ => rfl, fun hc => hc⟩)
  rw [List.map_id] at h
  have hs := pySearch_of_patMatch _ _ h
  rw [regexSearchCI, fragmentEngineCI]
  rw [show (normalizeSearchTerm s).data = aposSubChars (escapeChars s.data) from rfl]
  rw [hs]

end EurasiaDB
